import Mathlib

set_option maxRecDepth 8000

/-!
Verification of the HotFlow repository (Taobao affiliate client, prompt
builder and LLM copy generator) against its natural-language specification.

The Python sources under `hotflow/` are shallowly embedded below:

* Python `decimal.Decimal` values are embedded as `Dec`, an exact
  scaled-integer representation (`num / 10 ^ scale`), which matches the
  exponent-preserving arithmetic of `Decimal` on the plain decimal
  numerals this code base handles.
* JSON values decoded by the standard library are embedded as `Json`;
  Python dictionaries decoded from JSON are association lists.
* Functions that may raise are embedded with `Option`/`Except`.
* Network and clock effects are cut at the decoded-payload boundary: the
  HTTP body, the model reply and the per-page search results are taken
  as inputs of the embedded functions, exactly as the Python code
  receives them after `response.json()` / `message.content`.
-/

namespace Hotflow

/-- Exact decimal number `num / 10 ^ scale`, the embedding of Python
`decimal.Decimal` (which also stores an exponent and performs exact
arithmetic on these plain decimal forms). -/
structure Dec where
  num : ℤ
  scale : ℕ
deriving DecidableEq, Repr

/-- `10 ^ n` by structural recursion (kernel-reducible). -/
def tenPow : ℕ → ℕ
  | 0 => 1
  | n + 1 => 10 * tenPow n

/-- The integer value of `d` after rescaling to scale `m` (for `m ≥ d.scale`). -/
def Dec.atScale (d : Dec) (m : ℕ) : ℤ :=
  d.num * ((tenPow (m - d.scale) : ℕ) : ℤ)

/-- Subtraction of decimals, as Python `Decimal.__sub__`: exact, with the
result kept at the larger scale (smaller exponent). -/
def Dec.sub (a b : Dec) : Dec :=
  let m := max a.scale b.scale
  ⟨a.atScale m - b.atScale m, m⟩

/-- Value-level order on decimals, as Python `Decimal.__lt__`. -/
def Dec.lt (a b : Dec) : Prop :=
  a.atScale (max a.scale b.scale) < b.atScale (max a.scale b.scale)

instance : LT Dec := ⟨Dec.lt⟩

instance (a b : Dec) : Decidable (a < b) :=
  inferInstanceAs (Decidable (a.atScale (max a.scale b.scale) < b.atScale (max a.scale b.scale)))

/-- Value-level `≤` on decimals. -/
def Dec.le (a b : Dec) : Prop :=
  a.atScale (max a.scale b.scale) ≤ b.atScale (max a.scale b.scale)

instance : LE Dec := ⟨Dec.le⟩

instance (a b : Dec) : Decidable (a ≤ b) :=
  inferInstanceAs (Decidable (a.atScale (max a.scale b.scale) ≤ b.atScale (max a.scale b.scale)))

/-- The zero decimal, Python `Decimal("0")`. -/
def Dec.zero : Dec := ⟨0, 0⟩

/-- Python truthiness of a `Decimal`: nonzero value. -/
def Dec.truthy (d : Dec) : Bool := d.num ≠ 0

/-- Division of a decimal by `Decimal("100")`, used for commission rates.
Python `Decimal` division is exact here (a power-of-ten divisor); the
result value is `num / 10 ^ (scale + 2)`. -/
def Dec.div100 (d : Dec) : Dec := ⟨d.num, d.scale + 2⟩

/-- Truncation toward zero, as Python `int()` applied to this value. -/
def Dec.trunc (d : Dec) : ℤ :=
  if 0 ≤ d.num then ((d.num.natAbs / tenPow d.scale : ℕ) : ℤ)
  else -((d.num.natAbs / tenPow d.scale : ℕ) : ℤ)

/-- A JSON value as decoded by Python `json.loads`: objects are
association lists of string keys. Numbers carry the exact decimal value
of the numeral. -/
inductive Json where
  | null : Json
  | bool : Bool → Json
  | str : String → Json
  | num : Dec → Json
  | arr : List Json → Json
  | obj : List (String × Json) → Json

/-- `d.get(k)` on an embedded Python dictionary (association list). -/
def alookup {β : Type} : List (String × β) → String → Option β
  | [], _ => none
  | (k, v) :: rest, key => if k = key then some v else alookup rest key

/-- Python truthiness of a decoded JSON value. -/
def pyTruthy : Json → Bool
  | .null => false
  | .bool b => b
  | .str s => s ≠ ""
  | .num d => d.num ≠ 0
  | .arr xs => ¬ xs.isEmpty
  | .obj kvs => ¬ kvs.isEmpty

/-- `x or y` on two optional JSON values (`raw.get(a) or raw.get(b)`):
the first operand when it is present and truthy, otherwise the second. -/
def jOr (a b : Option Json) : Option Json :=
  match a with
  | some v => if pyTruthy v then some v else b
  | none => b

/-- `x or y or d` where `d` is a mandatory default (`raw.get(a) or d`). -/
def jOrDefault (a : Option Json) (d : Json) : Json :=
  match a with
  | some v => if pyTruthy v then v else d
  | none => d

/-- Python `str.strip()`: remove leading and trailing whitespace. -/
def pyStrip (s : String) : String :=
  ⟨((s.data.dropWhile Char.isWhitespace).reverse.dropWhile Char.isWhitespace).reverse⟩

/-- Numeric value of a list of decimal digit characters. -/
def digitsVal (cs : List Char) : ℕ :=
  cs.foldl (fun n c => 10 * n + (c.toNat - 48)) 0

/-- Parse an unsigned plain decimal numeral (`"12"`, `"12.5"`, `".5"`,
`"5."`) into its exact decimal value; `none` on anything else. -/
def parseUnsignedDec (cs : List Char) : Option Dec :=
  let ip := cs.takeWhile (fun c => c ≠ '.')
  match cs.drop ip.length with
  | [] =>
    if ip ≠ [] ∧ ip.all Char.isDigit then some ⟨(digitsVal ip : ℕ), 0⟩ else none
  | _ :: frac =>
    if (ip ≠ [] ∨ frac ≠ []) ∧ ip.all Char.isDigit ∧ frac.all Char.isDigit then
      some ⟨(digitsVal (ip ++ frac) : ℕ), frac.length⟩
    else none

/-- Parse an optionally signed plain decimal numeral. -/
def parseSignedDec : List Char → Option Dec
  | '-' :: rest => (parseUnsignedDec rest).map fun d => ⟨-d.num, d.scale⟩
  | '+' :: rest => parseUnsignedDec rest
  | cs => parseUnsignedDec cs

/-- Embeds both Python `Decimal(str)` and `float(str)` on the plain
decimal numerals this code base handles (surrounding whitespace allowed;
exponent notation, underscores and the infinities are out of scope of
the claims). `none` embeds a raised conversion exception. -/
def parseDecStr (s : String) : Option Dec :=
  parseSignedDec (pyStrip s).data

/-- Python strict `int(str)`: optional sign, digits only (whitespace
trimmed); `none` embeds a raised `ValueError`. -/
def parseIntStr (s : String) : Option ℤ :=
  match (pyStrip s).data with
  | '-' :: rest =>
    if rest ≠ [] ∧ rest.all Char.isDigit then some (-(digitsVal rest : ℕ) : ℤ) else none
  | '+' :: rest =>
    if rest ≠ [] ∧ rest.all Char.isDigit then some ((digitsVal rest : ℕ) : ℤ) else none
  | cs =>
    if cs ≠ [] ∧ cs.all Char.isDigit then some ((digitsVal cs : ℕ) : ℤ) else none

/-- Decimal rendering of the value of `d`, as Python `str` renders the
underlying number. -/
def renderDec (d : Dec) : String :=
  if d.scale = 0 then toString d.num
  else
    let a := (toString d.num.natAbs).data
    let padded := (List.replicate (d.scale + 1 - a.length) '0') ++ a
    (if d.num < 0 then "-" else "") ++
      (⟨padded.take (padded.length - d.scale)⟩ : String) ++ "." ++
      (⟨padded.drop (padded.length - d.scale)⟩ : String)

/-- Python `str()` of a decoded JSON value. The `repr`-style rendering of
containers is not modeled (no claim exercises it). -/
def pyStr : Json → String
  | .null => "None"
  | .bool true => "True"
  | .bool false => "False"
  | .str s => s
  | .num d => renderDec d
  | .arr _ => "<list>"
  | .obj _ => "<dict>"

/-- Embedding of `_safe_decimal` (taobao.py): `None`/`""` give `None`,
otherwise `Decimal(str(value))` with any conversion exception giving
`None`. For a JSON number, `Decimal(str(value))` reproduces the decimal
value of the numeral. -/
def safeDecimal : Option Json → Option Dec
  | none => none
  | some .null => none
  | some (.str s) => if s = "" then none else parseDecStr s
  | some (.num d) => some d
  | some (.bool _) => none
  | some (.arr _) => none
  | some (.obj _) => none

/-- Embedding of `_safe_int` (taobao.py): `None`/`""` give `None`,
otherwise `int(float(value))` (truncation toward zero) with any
conversion exception giving `None`; `float(bool)` is 0 or 1. -/
def safeInt : Option Json → Option ℤ
  | none => none
  | some .null => none
  | some (.str s) => if s = "" then none else (parseDecStr s).map Dec.trunc
  | some (.num d) => some d.trunc
  | some (.bool b) => some (if b then 1 else 0)
  | some (.arr _) => none
  | some (.obj _) => none

/-- `int(value)` on a JSON value (used for `int(raw["item_id"])`):
strict for strings, truncating for numbers; `none` embeds a raise. -/
def pyInt : Json → Option ℤ
  | .str s => parseIntStr s
  | .num d => some d.trunc
  | .bool b => some (if b then 1 else 0)
  | _ => none

/-- `x or y` on two optional decimals (`_safe_decimal(...) or price`):
the first operand when present and nonzero (Python truthiness of
`Decimal`), otherwise the second. -/
def decOr (a b : Option Dec) : Option Dec :=
  match a with
  | some d => if d.num ≠ 0 then some d else b
  | none => b

/-- Embedding of the `Item` dataclass (models.py). Fields that the Python
code may fill with arbitrary upstream values are kept as JSON values. -/
structure Item where
  item_id : ℤ
  category : String
  title : Json
  image_url : Option Json
  price : Option Dec
  coupon_price : Option Dec
  commission_rate : Option Dec
  monthly_sales : Option ℤ
  shop_score : Option Dec
  shop_title : Option Json
  item_url : Option Json
  coupon_url : Option Json
  coupon_info : Option Json
  tags : List String
  raw : List (String × Json)

/-- Python truthiness of an optional JSON value (`None` is falsy). -/
def jTruthy (a : Option Json) : Bool :=
  match a with
  | some v => pyTruthy v
  | none => false

/-- `"；".join(parts)` — join with a full-width semicolon. -/
def joinSep (sep : String) : List String → String
  | [] => ""
  | [s] => s
  | s :: rest => s ++ sep ++ joinSep sep rest

/-- Embedding of `TaobaoClient._parse_item` (taobao.py). `none` embeds the
exception raised by `int(raw["item_id"])` when the key is missing or not
an integer; every other field degrades to an absent value exactly as the
Python code does. -/
def parse_item (raw : List (String × Json)) (keyword : String) : Option Item :=
  match (alookup raw "item_id").bind pyInt with
  | none => none
  | some iid =>
    let price := safeDecimal (alookup raw "zk_final_price")
    let original_price := decOr (safeDecimal (alookup raw "reserve_price")) price
    let coupon_amount := safeDecimal (alookup raw "coupon_amount")
    let coupon_price : Option Dec :=
      match price, coupon_amount with
      | some p, some c => some (if p.sub c < Dec.zero then Dec.zero else p.sub c)
      | p, _ => p
    let commission_rate := (safeDecimal (alookup raw "commission_rate")).map Dec.div100
    let monthly_sales := safeInt (jOr (alookup raw "volume") (alookup raw "month_sales"))
    let shop_score := safeDecimal (alookup raw "shop_dsr")
    let coupon_info_parts : List String :=
      (if jTruthy (alookup raw "coupon_start_fee") ∧ jTruthy (alookup raw "coupon_amount") then
        ["满" ++ pyStr ((alookup raw "coupon_start_fee").getD .null) ++ "减" ++
          pyStr ((alookup raw "coupon_amount").getD .null)]
      else []) ++
      (if jTruthy (alookup raw "coupon_end_time") then
        ["券有效期至" ++ pyStr ((alookup raw "coupon_end_time").getD .null)]
      else [])
    let joined := joinSep "；" coupon_info_parts
    let coupon_info : Option Json :=
      if joined = "" then alookup raw "coupon_info" else some (.str joined)
    some
      { item_id := iid
        category := keyword
        title := jOrDefault (jOr (alookup raw "short_title") (alookup raw "title")) (.str "")
        image_url := alookup raw "pict_url"
        price := original_price
        coupon_price := coupon_price
        commission_rate := commission_rate
        monthly_sales := monthly_sales
        shop_score := shop_score
        shop_title := jOr (alookup raw "shop_title") (alookup raw "shop_dsr")
        item_url := jOr (alookup raw "url") (alookup raw "item_url")
        coupon_url := jOr (alookup raw "coupon_share_url") (alookup raw "coupon_click_url")
        coupon_info := coupon_info
        tags := [keyword]
        raw := raw }

/-- Lexicographic `≤` on character lists by code point — the order Python
uses to compare `str` values. -/
def strLeB : List Char → List Char → Bool
  | [], _ => true
  | _ :: _, [] => false
  | a :: as, b :: bs => if a < b then true else if b < a then false else strLeB as bs

/-- Python tuple comparison on `(key, value)` string pairs: compare keys,
break ties by values — the order used by `sorted` in `TaobaoClient.sign`. -/
def pairLeB (a b : String × String) : Bool :=
  if a.1 = b.1 then strLeB a.2.data b.2.data else strLeB a.1.data b.1.data

/-- `pairLeB` as a decidable relation for `List.insertionSort`. -/
def pairRel (a b : String × String) : Prop := pairLeB a b = true

instance : DecidableRel pairRel := fun a b => inferInstanceAs (Decidable (_ = true))

theorem strLeB_total (as bs : List Char) : strLeB as bs = true ∨ strLeB bs as = true := by
  induction as generalizing bs with
  | nil => exact Or.inl rfl
  | cons a as ih =>
    cases bs with
    | nil => exact Or.inr rfl
    | cons b bs =>
      rcases lt_trichotomy a b with h | h | h
      · left; simp [strLeB, h]
      · subst h
        rcases ih bs with h2 | h2
        · left; simp [strLeB, lt_irrefl, h2]
        · right; simp [strLeB, lt_irrefl, h2]
      · right; simp [strLeB, h]

theorem strLeB_antisymm {as bs : List Char} (h1 : strLeB as bs = true)
    (h2 : strLeB bs as = true) : as = bs := by
  induction as generalizing bs with
  | nil => cases bs with
    | nil => rfl
    | cons b bs => exact Bool.noConfusion h2
  | cons a as ih =>
    cases bs with
    | nil => simp [strLeB] at h1
    | cons b bs =>
      rcases lt_trichotomy a b with h | h | h
      · simp [strLeB, h, asymm h] at h2
      · subst h
        simp only [strLeB, lt_irrefl, if_false] at h1 h2
        exact congrArg (a :: ·) (ih h1 h2)
      · simp [strLeB, h, asymm h] at h1

theorem strLeB_trans {as bs cs : List Char} (h1 : strLeB as bs = true)
    (h2 : strLeB bs cs = true) : strLeB as cs = true := by
  induction as generalizing bs cs with
  | nil => rfl
  | cons a as ih =>
    cases bs with
    | nil => simp [strLeB] at h1
    | cons b bs =>
      cases cs with
      | nil => simp [strLeB] at h2
      | cons c cs =>
        rcases lt_trichotomy a b with hab | hab | hab
        · rcases lt_trichotomy b c with hbc | hbc | hbc
          · simp [strLeB, lt_trans hab hbc]
          · subst hbc; simp [strLeB, hab]
          · simp [strLeB, hbc, asymm hbc] at h2
        · subst hab
          rcases lt_trichotomy a c with hac | hac | hac
          · simp [strLeB, hac]
          · subst hac
            simp only [strLeB, lt_irrefl, if_false] at h1 h2 ⊢
            exact ih h1 h2
          · simp [strLeB, hac, asymm hac] at h2
        · simp [strLeB, hab, asymm hab] at h1

theorem string_ext {s t : String} (h : s.data = t.data) : s = t := by
  cases s; cases t; cases h; rfl

instance : IsTotal (String × String) pairRel := by
  constructor
  intro a b
  unfold pairRel pairLeB
  by_cases h : a.1 = b.1
  · rw [if_pos h, if_pos h.symm]
    exact strLeB_total a.2.data b.2.data
  · rw [if_neg h, if_neg (fun hh => h hh.symm)]
    exact strLeB_total a.1.data b.1.data

instance : IsAntisymm (String × String) pairRel := by
  constructor
  intro a b h1 h2
  unfold pairRel pairLeB at h1 h2
  by_cases h : a.1 = b.1
  · have h3 : b.1 = a.1 := h.symm
    rw [if_pos h] at h1
    rw [if_pos h3] at h2
    have h4 : a.2 = b.2 := string_ext (strLeB_antisymm h1 h2)
    exact Prod.ext h h4
  · have h3 : ¬ b.1 = a.1 := fun hh => h hh.symm
    rw [if_neg h] at h1
    rw [if_neg h3] at h2
    exact absurd (string_ext (strLeB_antisymm h1 h2)) h

instance : IsTrans (String × String) pairRel := by
  constructor
  intro a b c h1 h2
  unfold pairRel pairLeB at h1 h2 ⊢
  by_cases hab : a.1 = b.1
  · by_cases hbc : b.1 = c.1
    · rw [if_pos hab] at h1
      rw [if_pos hbc] at h2
      rw [if_pos (hab.trans hbc)]
      exact strLeB_trans h1 h2
    · rw [if_pos hab] at h1
      rw [if_neg hbc] at h2
      have hac : ¬ a.1 = c.1 := fun hh => hbc (hab.symm.trans hh)
      rw [if_neg hac, hab]
      exact h2
  · by_cases hbc : b.1 = c.1
    · rw [if_neg hab] at h1
      rw [if_pos hbc] at h2
      have hac : ¬ a.1 = c.1 := fun hh => hab (hh.trans hbc.symm)
      rw [if_neg hac, ← hbc]
      exact h1
    · rw [if_neg hab] at h1
      rw [if_neg hbc] at h2
      by_cases hac : a.1 = c.1
      · exfalso
        have h3 : strLeB b.1.data a.1.data = true := by rw [hac]; exact h2
        exact hab (string_ext (strLeB_antisymm h1 h3))
      · rw [if_neg hac]
        exact strLeB_trans h1 h2

/-- The base string of `TaobaoClient.sign` (taobao.py): drop parameters
whose value is `None`, sort the remaining `(key, value)` pairs as Python
`sorted` does, and concatenate `secret + k1 + v1 + ... + secret`. -/
def sign_base (params : List (String × Option String)) (secret : String) : String :=
  secret ++
    String.join ((List.insertionSort pairRel
      (params.filterMap fun kv => kv.2.map fun v => (kv.1, v))).map fun kv => kv.1 ++ kv.2) ++
    secret

/-- Embedding of `TaobaoClient.sign` (taobao.py). The MD5 implementation
lives in Python's `hashlib`, outside this repository; it is abstracted as
the `md5hex` argument producing the hex digest of the base string. -/
def sign (md5hex : String → String) (params : List (String × Option String))
    (secret : String) : String :=
  (md5hex (sign_base params secret)).toUpper

/-- One step of the `fetch_many` page loop (taobao.py): `page` is the next
page number, the second argument the number of loop iterations left
(`pages + 1 - page`). `search` gives each page's items as returned by the
upstream API. The result pairs the collected items with the list of page
numbers actually requested (the observable `self.search` calls, in
order). -/
def fetchPages {α : Type} (search : ℕ → List α) (pageSize : ℕ) :
    ℕ → ℕ → List α × List ℕ
  | _, 0 => ([], [])
  | page, fuel + 1 =>
    let items := search page
    if items.isEmpty then ([], [page])
    else if items.length < pageSize then (items, [page])
    else
      let rest := fetchPages search pageSize (page + 1) fuel
      (items ++ rest.1, page :: rest.2)

/-- Embedding of `TaobaoClient.fetch_many` (taobao.py): loop over pages
`1 .. pages`, stop on an empty page (nothing added) or a short page (its
items still added). The sleep between requests has no observable effect
on the result and is not modeled. -/
def fetch_many {α : Type} (search : ℕ → List α) (pages pageSize : ℕ) :
    List α × List ℕ :=
  fetchPages search pageSize 1 pages

/-- Outcome of `TaobaoClient._request` (taobao.py) on a decoded response
body: an upstream error envelope raises `TaobaoAPIError` carrying the
envelope's code and `msg or sub_msg`; a non-dict envelope raises
`AttributeError`; otherwise the `tbk_dg_material_optional_response` value
(default `{}`) is returned. -/
inductive ReqOutcome where
  | attrError : ReqOutcome
  | apiError : Option Json → Option Json → ReqOutcome
  | ok : Json → ReqOutcome

/-- Embedding of `TaobaoClient._request` after HTTP decoding (body is the
decoded top-level JSON object). -/
def taobao_request (body : List (String × Json)) : ReqOutcome :=
  match alookup body "error_response" with
  | some err =>
    match err with
    | .obj kvs =>
      .apiError (alookup kvs "code") (jOr (alookup kvs "msg") (alookup kvs "sub_msg"))
    | _ => .attrError
  | none => .ok ((alookup body "tbk_dg_material_optional_response").getD (.obj []))

deriving instance DecidableEq for Except

/-- Raised Python exceptions of the parsing paths. -/
inductive PyErr where
  | indexError : PyErr
  | attributeError : PyErr
deriving DecidableEq

/-- Embedding of `payload.get("result_list", {}).get("map_data", [])` in
`TaobaoClient.search` (taobao.py), applied to the payload returned by
`_request`. -/
def result_list_of (payload : Json) : Except PyErr Json :=
  match payload with
  | .obj kvs =>
    match (alookup kvs "result_list").getD (.obj []) with
    | .obj kvs2 => .ok ((alookup kvs2 "map_data").getD (.arr []))
    | _ => .error .attributeError
  | _ => .error .attributeError

/-- Round `a / d` to the nearest integer, ties to even (`d > 0`) — the
default `Decimal` rounding used by Python string formatting. -/
def halfEvenDiv (a d : ℕ) : ℕ :=
  let q := a / d
  let r := a % d
  if 2 * r < d then q
  else if 2 * r > d then q + 1
  else if q % 2 = 0 then q else q + 1

/-- The value of `d` in cents, rounded half-even — `f"{d:.2f}"` without
the decimal point. -/
def decCents (d : Dec) : ℤ :=
  if d.scale ≤ 2 then d.num * ((tenPow (2 - d.scale) : ℕ) : ℤ)
  else
    let q := halfEvenDiv d.num.natAbs (tenPow (d.scale - 2))
    if d.num < 0 then -(q : ℤ) else (q : ℤ)

/-- Two-digit rendering of `n < 100`. -/
def pad2 (n : ℕ) : String :=
  if n < 10 then "0" ++ toString n else toString n

/-- Embedding of `_format_price` (prompts.py): `"未知"` for an absent
value, otherwise `f"¥{value:.2f}"`. -/
def format_price : Option Dec → String
  | none => "未知"
  | some d =>
    let c := decCents d
    "¥" ++ (if c < 0 then "-" else "") ++ toString (c.natAbs / 100) ++ "." ++
      pad2 (c.natAbs % 100)

/-- Embedding of `_format_sales` (prompts.py): `"未知"` for an absent
value, `f"{value / 10000:.1f}万+"` from 10000 up, plain `str` below.
The float division is modeled by exact half-even rounding to one decimal
digit. -/
def format_sales : Option ℤ → String
  | none => "未知"
  | some v =>
    if v ≥ 10000 then
      let t := halfEvenDiv (v.natAbs * 10) 10000
      toString (t / 10) ++ "." ++ toString (t % 10) ++ "万+"
    else toString v

/-- Embedding of `derive_features` (prompts.py). -/
def derive_features (item : Item) : String :=
  let raw := item.raw
  let f1 : List String :=
    match jOr (alookup raw "item_description") (alookup raw "item_short_title") with
    | some v => if pyTruthy v then [pyStr v] else []
    | none => []
  let f2 := if jTruthy (alookup raw "provcity") then
      ["发货地 " ++ pyStr ((alookup raw "provcity").getD .null)] else []
  let f3 := if jTruthy (alookup raw "level_one_category_name") then
      ["类目：" ++ pyStr ((alookup raw "level_one_category_name").getD .null)] else []
  let f4 : List String :=
    match alookup raw "small_images" with
    | some si =>
      if pyTruthy si then
        let images : Option Json :=
          match si with
          | .obj kvs => alookup kvs "string"
          | _ => some si
        match images with
        | some (.arr xs) => if xs.isEmpty then [] else ["精选图" ++ toString xs.length ++ "张"]
        | _ => []
      else []
    | none => []
  let f5 := if item.tags.isEmpty then [] else ["#" ++ joinSep " #" item.tags]
  let fs := f1 ++ f2 ++ f3 ++ f4 ++ f5
  let fs := if fs.isEmpty then ["口碑好, 性价比高"] else fs
  joinSep "；" fs

/-- The coupon-price slot of `build_prompt` (prompts.py, line 64):
`_format_price(item.coupon_price or item.price)`. -/
def couponPriceSlot (item : Item) : String :=
  format_price (decOr item.coupon_price item.price)

/-- Embedding of `build_prompt` (prompts.py): `PROMPT_TEMPLATE.format`
written as explicit concatenation of the template's literal segments with
the formatted slot values. -/
def build_prompt (item : Item) (platforms : List String) (variants : ℕ) : String :=
  let platform_keys := joinSep ", " platforms
  let features := derive_features item
  "你是一名擅长电商种草文案的写手, 擅长用真实体验打动消费者。\n\n请根据以下商品信息, 为每个平台生成 "
    ++ toString variants ++
    " 条不同风格的推广文案。\n\n输出要求:\n1. 每个平台输出一个数组, 其中包含 "
    ++ toString variants ++
    " 条文案字符串。\n2. 结果必须是 JSON 格式, 字段名使用平台英文标识: "
    ++ platform_keys ++
    "。\n3. 文案需要自然真实, 强调省钱、使用体验和复购感受。\n4. 合理添加 emoji, 但避免过度使用。\n\n商品信息:\n- 品类: "
    ++ item.category ++ "\n- 名称: " ++ pyStr item.title ++ "\n- 券后价: "
    ++ couponPriceSlot item ++ "\n- 原价: " ++ format_price item.price ++ "\n- 月销量: "
    ++ format_sales item.monthly_sales ++ "\n- 店铺: "
    ++ pyStr (jOrDefault item.shop_title (.str "优质店铺")) ++ "\n- 核心卖点: "
    ++ features ++ "\n- 优惠信息: "
    ++ pyStr (jOrDefault item.coupon_info (.str "下单立减, 先到先得")) ++
    "\n\n如果信息缺失, 请合理发挥但不要捏造夸张数据。"

/-- The backtick character (code point 96). -/
def btick : Char := Char.ofNat 96

/-- The opening curly brace character (code point 123). -/
def lbrace : Char := Char.ofNat 123

/-- The closing curly brace character (code point 125). -/
def rbrace : Char := Char.ofNat 125

/-- The fence-stripping preamble of `CopyWriter._parse_response`
(copymaker.py): strip whitespace; when the text starts with a code fence,
strip surrounding backticks and, if an opening brace occurs, slice from
the first opening brace to one past the last closing brace (the empty
string when no closing brace exists, as Python `rfind` returns -1). -/
def stripPayload (payload : String) : String :=
  let text := pyStrip payload
  if (("```" : String).data).isPrefixOf text.data then
    let t2 := ((text.data.dropWhile (· = btick)).reverse.dropWhile (· = btick)).reverse
    if t2.contains lbrace then
      let i := (t2.takeWhile (· ≠ lbrace)).length
      if t2.contains rbrace then
        let j := t2.length - 1 - (t2.reverse.takeWhile (· ≠ rbrace)).length
        ⟨(t2.drop i).take (j + 1 - i)⟩
      else ""
    else ⟨t2⟩
  else text

/-- The per-platform text extraction of `CopyWriter._parse_response`
(copymaker.py, decode-success branch): a list contributes its non-empty
stripped stringifications in order, a string contributes its stripped
self, anything else contributes nothing; then the list is cut to
`variants` entries when longer. -/
def platformTexts (value : Option Json) (variants : ℕ) : List String :=
  let texts : List String :=
    match value with
    | some (.arr xs) => (xs.map fun it => pyStrip (pyStr it)).filter (fun s => s ≠ "")
    | some (.str s) => [pyStrip s]
    | _ => []
  if variants < texts.length then texts.take variants else texts

/-- The spec's wording of the per-platform extraction (§4.2 step 4), for
comparison with `platformTexts`: contributions as described, then
truncation to at most `variants` entries. -/
def specPlatformTexts (value : Option Json) (variants : ℕ) : List String :=
  (match value with
    | some (.arr xs) => (xs.map fun it => pyStrip (pyStr it)).filter (fun s => s ≠ "")
    | some (.str s) => [pyStrip s]
    | _ => []).take variants

/-- Embedding of `CopyWriter._parse_response` (copymaker.py). The strict
JSON decode performed by `json.loads` (standard library, outside this
repository) is abstracted as the `decode` argument; `none` embeds a
raised `JSONDecodeError`. An empty platform list makes the fallback
branch raise `IndexError` at `platforms[0]`; a decoded non-object makes
the success branch raise `AttributeError` at `data.get(platform)` as soon
as one platform is requested. -/
def parse_response (decode : String → Option Json) (payload : String)
    (platforms : List String) (variants : ℕ) :
    Except PyErr (List (String × List String)) :=
  let text := stripPayload payload
  match decode text with
  | none =>
    match platforms with
    | [] => .error .indexError
    | p :: _ => .ok [(p, [pyStrip payload])]
  | some data =>
    match platforms with
    | [] => .ok []
    | _ =>
      match data with
      | .obj kvs =>
        .ok (platforms.map fun platform => (platform, platformTexts (alookup kvs platform) variants))
      | _ => .error .attributeError

/-- Embedding of the `Creative` dataclass (models.py) restricted to the
fields `CopyWriter.generate` determines; the random `creative_id` and the
wall-clock `created_at` are not modeled, and the metadata mapping
`{"platforms": ..., "variants_requested": ...}` is flattened into the two
`meta_` fields. -/
structure Creative where
  item_id : ℤ
  platform : String
  variant : ℕ
  content : String
  prompt : String
  model : String
  temperature : Dec
  provider : String
  meta_platforms : List String
  meta_variants : ℕ
deriving DecidableEq

/-- The creative-building loop of `CopyWriter.generate` (copymaker.py):
for each requested platform, `parsed.get(platform) or []`, then one
`Creative` per text with 1-based `enumerate` indices. -/
def creativesFor (parsed : List (String × List String)) (platforms : List String)
    (itemId : ℤ) (prompt modelName : String) (temp : Dec) (provider : String)
    (variants : ℕ) : List Creative :=
  platforms.flatMap fun platform =>
    let texts := (alookup parsed platform).getD []
    texts.enum.map fun it =>
      { item_id := itemId
        platform := platform
        variant := it.1 + 1
        content := it.2
        prompt := prompt
        model := modelName
        temperature := temp
        provider := provider
        meta_platforms := platforms
        meta_variants := variants }

/-- Embedding of `CopyWriter.generate` (copymaker.py) from the model
reply on: `payload` is the reply text (`message.content or ""`), `prompt`
the prompt `generate` built and sent; the chat-completion HTTP call
itself is outside the embedding. -/
def generateCreatives (decode : String → Option Json) (itemId : ℤ)
    (prompt modelName : String) (temp : Dec) (provider : String) (payload : String)
    (platforms : List String) (variants : ℕ) : Except PyErr (List Creative) :=
  (parse_response decode payload platforms variants).map fun parsed =>
    creativesFor parsed platforms itemId prompt modelName temp provider variants

theorem sign_base_perm {p q : List (String × Option String)} (secret : String)
    (h : p.Perm q) : sign_base p secret = sign_base q secret := by
  unfold sign_base
  have hf : (p.filterMap fun kv => kv.2.map fun v => (kv.1, v)).Perm
      (q.filterMap fun kv => kv.2.map fun v => (kv.1, v)) := h.filterMap _
  have heq :
      List.insertionSort pairRel (p.filterMap fun kv => kv.2.map fun v => (kv.1, v)) =
      List.insertionSort pairRel (q.filterMap fun kv => kv.2.map fun v => (kv.1, v)) :=
    List.eq_of_perm_of_sorted
      ((List.perm_insertionSort pairRel _).trans
        (hf.trans (List.perm_insertionSort pairRel _).symm))
      (List.sorted_insertionSort pairRel _)
      (List.sorted_insertionSort pairRel _)
  rw [heq]

/-- C1: `TaobaoClient.sign` is a pure function of the parameter mapping and
the secret: it drops parameters whose value is absent, sorts the remaining
parameters (Python sorts the `(name, value)` pairs, which for the distinct
names of a mapping is lexicographic by name), concatenates
`secret + name1 + value1 + ... + secret` with no separator, and returns the
uppercase hex digest of the MD5 of that string; mappings holding the same
pairs in a different order sign identically, and on the spec's example
parameters with secret `"abcdefg"` the signature is the uppercase hex MD5
of the expected concatenation. -/
theorem sign_pure_and_example :
    (∀ (md5hex : String → String) (p q : List (String × Option String)) (secret : String),
      p.Perm q → sign md5hex p secret = sign md5hex q secret) ∧
    (∀ (md5hex : String → String) (p : List (String × Option String)) (secret k : String),
      sign md5hex ((k, none) :: p) secret = sign md5hex p secret) ∧
    (∀ md5hex : String → String,
      sign md5hex [("app_key", some "123456"), ("method", some "taobao.test"),
          ("timestamp", some "2024-01-01 00:00:00"), ("format", some "json")] "abcdefg" =
        (md5hex
          "abcdefgapp_key123456formatjsonmethodtaobao.testtimestamp2024-01-01 00:00:00abcdefg").toUpper) := by
  refine ⟨?_, ?_, ?_⟩
  · intro md5hex p q secret h
    unfold sign
    rw [sign_base_perm secret h]
  · intro md5hex p secret k
    unfold sign
    have hb : sign_base ((k, none) :: p) secret = sign_base p secret := by
      unfold sign_base
      rw [List.filterMap_cons_none]
      rfl
    rw [hb]
  · intro md5hex
    unfold sign
    have hb :
        sign_base [("app_key", some "123456"), ("method", some "taobao.test"),
          ("timestamp", some "2024-01-01 00:00:00"), ("format", some "json")] "abcdefg" =
        "abcdefgapp_key123456formatjsonmethodtaobao.testtimestamp2024-01-01 00:00:00abcdefg" := by
      decide
    rw [hb]

/-- Witness for C1: the purity part applied to a concrete permutation. -/
theorem sign_pure_and_example_witness :
    ([("b", some "2"), ("a", some "1")] : List (String × Option String)).Perm
        [("a", some "1"), ("b", some "2")] ∧
    sign (fun s => s) [("b", some "2"), ("a", some "1")] "x" =
      sign (fun s => s) [("a", some "1"), ("b", some "2")] "x" :=
  ⟨by decide, sign_pure_and_example.1 (fun s => s) _ _ "x" (by decide)⟩

theorem fetchPages_empty {α : Type} {s : ℕ → List α} {ps page n : ℕ}
    (h : (s page).isEmpty) : fetchPages s ps page (n + 1) = ([], [page]) := by
  simp [fetchPages, h]

theorem fetchPages_short {α : Type} {s : ℕ → List α} {ps page n : ℕ}
    (h1 : ¬ (s page).isEmpty) (h2 : (s page).length < ps) :
    fetchPages s ps page (n + 1) = (s page, [page]) := by
  simp [fetchPages, h1, h2]

theorem fetchPages_full {α : Type} {s : ℕ → List α} {ps page n : ℕ}
    (h1 : ¬ (s page).isEmpty) (h2 : ¬ (s page).length < ps) :
    fetchPages s ps page (n + 1) =
      (s page ++ (fetchPages s ps (page + 1) n).1,
        page :: (fetchPages s ps (page + 1) n).2) := by
  simp [fetchPages, h1, h2]

theorem fetchPages_spec {α : Type} (s : ℕ → List α) (ps : ℕ) :
    ∀ fuel page, 1 ≤ fuel →
      ∃ k, 1 ≤ k ∧ k ≤ fuel ∧
        (fetchPages s ps page fuel).2 = List.range' page k ∧
        (fetchPages s ps page fuel).1 = ((List.range' page k).map s).flatten ∧
        (∀ i, i + 1 < k → ¬ (s (page + i)).isEmpty ∧ ps ≤ (s (page + i)).length) ∧
        (k < fuel → (s (page + (k - 1))).isEmpty ∨ (s (page + (k - 1))).length < ps) := by
  intro fuel
  induction fuel with
  | zero => intro page h; omega
  | succ n ih =>
    intro page _
    by_cases he : (s page).isEmpty
    · have he' : s page = [] := List.isEmpty_iff.mp he
      refine ⟨1, le_refl 1, by omega, ?_, ?_, ?_, ?_⟩
      · rw [fetchPages_empty he]; rfl
      · rw [fetchPages_empty he]
        simp [List.range', he']
      · intro i hi; omega
      · intro _; left; simpa using he
    · by_cases hs : (s page).length < ps
      · refine ⟨1, le_refl 1, by omega, ?_, ?_, ?_, ?_⟩
        · rw [fetchPages_short he hs]; rfl
        · rw [fetchPages_short he hs]
          simp [List.range']
        · intro i hi; omega
        · intro _; right; simpa using hs
      · cases n with
        | zero =>
          refine ⟨1, le_refl 1, le_refl 1, ?_, ?_, ?_, ?_⟩
          · rw [fetchPages_full he hs]; rfl
          · rw [fetchPages_full he hs]
            simp [fetchPages, List.range']
          · intro i hi; omega
          · intro h; omega
        | succ m =>
          obtain ⟨k, hk1, hkf, h2, h1, hfull, hstop⟩ := ih (page + 1) (by omega)
          refine ⟨k + 1, by omega, by omega, ?_, ?_, ?_, ?_⟩
          · rw [fetchPages_full he hs]
            show page :: (fetchPages s ps (page + 1) (m + 1)).2 = List.range' page (k + 1)
            rw [List.range'_succ, h2]
          · rw [fetchPages_full he hs]
            show s page ++ (fetchPages s ps (page + 1) (m + 1)).1 =
              ((List.range' page (k + 1)).map s).flatten
            rw [List.range'_succ, h1]
            rfl
          · intro i hi
            cases i with
            | zero =>
              exact ⟨by simpa using he, by simpa using Nat.le_of_not_lt hs⟩
            | succ j =>
              have hj := hfull j (by omega)
              have hpj : page + (j + 1) = page + 1 + j := by omega
              rw [hpj]
              exact hj
          · intro hlt
            have hk : page + (k + 1 - 1) = page + 1 + (k - 1) := by omega
            rw [hk]
            exact hstop (by omega)

/-- The pagination scenario of the spec: page 1 is full (50 items), page 2
is short (30 items), later pages would again be full. -/
def ex3search : ℕ → List ℕ := fun p =>
  if p = 1 then List.range 50 else if p = 2 then List.range 30 else List.range 50

/-- C3: `fetch_many` requests pages `1 .. k` in increasing order for some
`k ≤ pages` and returns the concatenation of the fetched pages' items in
request order (an empty page contributes nothing); every page before the
last requested one was non-empty and full, and if the loop stopped before
`pages` the last requested page was empty or short; concretely, with
`pages = 5`, `page_size = 50` and page 2 returning 30 items the result is
page 1's items followed by page 2's 30 items and no page-3 request is
issued. -/
theorem fetch_many_pagination :
    (∀ (α : Type) (s : ℕ → List α) (pages pageSize : ℕ), 1 ≤ pages →
      ∃ k, 1 ≤ k ∧ k ≤ pages ∧
        (fetch_many s pages pageSize).2 = List.range' 1 k ∧
        (fetch_many s pages pageSize).1 = ((List.range' 1 k).map s).flatten ∧
        (∀ i, i + 1 < k → ¬ (s (1 + i)).isEmpty ∧ pageSize ≤ (s (1 + i)).length) ∧
        (k < pages → (s (1 + (k - 1))).isEmpty ∨ (s (1 + (k - 1))).length < pageSize)) ∧
    fetch_many ex3search 5 50 = (List.range 50 ++ List.range 30, [1, 2]) := by
  constructor
  · intro α s pages pageSize h
    exact fetchPages_spec s pageSize pages 1 h
  · decide

/-- Witness for C3: the general pagination property applied to the
concrete two-page scenario. -/
theorem fetch_many_pagination_witness :
    ∃ k, 1 ≤ k ∧ k ≤ 5 ∧
      (fetch_many ex3search 5 50).2 = List.range' 1 k ∧
      (fetch_many ex3search 5 50).1 = ((List.range' 1 k).map ex3search).flatten ∧
      (∀ i, i + 1 < k → ¬ (ex3search (1 + i)).isEmpty ∧ 50 ≤ (ex3search (1 + i)).length) ∧
      (k < 5 → (ex3search (1 + (k - 1))).isEmpty ∨ (ex3search (1 + (k - 1))).length < 50) :=
  fetch_many_pagination.1 ℕ ex3search 5 50 (by decide)

theorem parse_item_price {raw : List (String × Json)} {kw : String} {item : Item}
    (h : parse_item raw kw = some item) :
    item.price =
      decOr (safeDecimal (alookup raw "reserve_price"))
        (safeDecimal (alookup raw "zk_final_price")) := by
  cases hp : (alookup raw "item_id").bind pyInt with
  | none => simp [parse_item, hp] at h
  | some iid =>
    simp only [parse_item, hp, Option.some.injEq] at h
    subst h
    rfl

theorem parse_item_coupon_price {raw : List (String × Json)} {kw : String} {item : Item}
    (h : parse_item raw kw = some item) :
    item.coupon_price =
      match safeDecimal (alookup raw "zk_final_price"),
          safeDecimal (alookup raw "coupon_amount") with
      | some p, some c => some (if p.sub c < Dec.zero then Dec.zero else p.sub c)
      | p, _ => p := by
  cases hp : (alookup raw "item_id").bind pyInt with
  | none => simp [parse_item, hp] at h
  | some iid =>
    simp only [parse_item, hp, Option.some.injEq] at h
    subst h
    rfl

theorem parse_item_monthly_sales {raw : List (String × Json)} {kw : String} {item : Item}
    (h : parse_item raw kw = some item) :
    item.monthly_sales =
      safeInt (jOr (alookup raw "volume") (alookup raw "month_sales")) := by
  cases hp : (alookup raw "item_id").bind pyInt with
  | none => simp [parse_item, hp] at h
  | some iid =>
    simp only [parse_item, hp, Option.some.injEq] at h
    subst h
    rfl

/-- An upstream entry with both prices present: final 100, reserve 200. -/
def c2raw : List (String × Json) :=
  [("item_id", .str "1"), ("zk_final_price", .str "100"), ("reserve_price", .str "200")]

/-- C2 counterexample: with both prices present, the constructed Item's
price is the reserve price 200, not the final price 100 that the claim
says it should be — `_parse_item` assigns `reserve_price or zk_final_price`
to the price field. -/
theorem price_prefers_reserve_ce :
    (parse_item c2raw "kw").map Item.price = some (some ⟨200, 0⟩) ∧
    safeDecimal (alookup c2raw "zk_final_price") = some ⟨100, 0⟩ ∧
    (some (⟨200, 0⟩ : Dec) : Option Dec) ≠ some ⟨100, 0⟩ := by decide

/-- C2 (amended): the Item's price field is set from the upstream
reserve-price field as a decimal, falling back to the final-price field
only when the reserve price is absent, unparseable, or parses to zero
(Python truthiness of `Decimal`). -/
theorem price_field_amended :
    ∀ (raw : List (String × Json)) (kw : String) (item : Item),
      parse_item raw kw = some item →
      item.price =
        match safeDecimal (alookup raw "reserve_price") with
        | some r =>
          if r.num = 0 then safeDecimal (alookup raw "zk_final_price") else some r
        | none => safeDecimal (alookup raw "zk_final_price") := by
  intro raw kw item h
  rw [parse_item_price h]
  unfold decOr
  cases safeDecimal (alookup raw "reserve_price") with
  | none => rfl
  | some r =>
    by_cases hz : r.num = 0
    · simp [hz]
    · simp [hz]

/-- An upstream entry with only a reserve price. -/
def c2wraw : List (String × Json) :=
  [("item_id", .str "1"), ("reserve_price", .str "200")]

/-- Witness for the amended C2 at a concrete entry. -/
theorem price_field_amended_witness :
    ∃ item, parse_item c2wraw "kw" = some item ∧
      item.price =
        match safeDecimal (alookup c2wraw "reserve_price") with
        | some r =>
          if r.num = 0 then safeDecimal (alookup c2wraw "zk_final_price") else some r
        | none => safeDecimal (alookup c2wraw "zk_final_price") := by
  cases h : parse_item c2wraw "kw" with
  | none => exact Option.noConfusion h
  | some item => exact ⟨item, rfl, price_field_amended c2wraw "kw" item h⟩

theorem dec_zero_le {q : Dec} : Dec.zero ≤ q ↔ 0 ≤ q.num := by
  show Dec.le ⟨0, 0⟩ q ↔ _
  unfold Dec.le Dec.atScale
  simp [tenPow, Nat.sub_self]

theorem dec_lt_zero {q : Dec} : q < Dec.zero ↔ q.num < 0 := by
  show Dec.lt q ⟨0, 0⟩ ↔ _
  unfold Dec.lt Dec.atScale
  simp [tenPow, Nat.sub_self]

/-- An upstream entry where the coupon amount exceeds the final price. -/
def c6raw : List (String × Json) :=
  [("item_id", .str "1"), ("zk_final_price", .str "10"), ("coupon_amount", .str "30")]

/-- C6: when both the final price and the coupon amount parse as decimals,
the constructed Item's coupon price is their difference clamped to zero
from below — hence never negative when present; when the coupon amount is
absent or unparseable the coupon price equals the parsed final price. -/
theorem coupon_price_clamped :
    ∀ (raw : List (String × Json)) (kw : String) (item : Item),
      parse_item raw kw = some item →
      (∀ p c, safeDecimal (alookup raw "zk_final_price") = some p →
        safeDecimal (alookup raw "coupon_amount") = some c →
        item.coupon_price = some (if p.sub c < Dec.zero then Dec.zero else p.sub c) ∧
        ∀ q, item.coupon_price = some q → Dec.zero ≤ q) ∧
      (safeDecimal (alookup raw "coupon_amount") = none →
        item.coupon_price = safeDecimal (alookup raw "zk_final_price")) := by
  intro raw kw item h
  have hc := parse_item_coupon_price h
  constructor
  · intro p c hp hcoup
    rw [hp, hcoup] at hc
    refine ⟨hc, ?_⟩
    intro q hq
    rw [hc] at hq
    have hq2 : (if p.sub c < Dec.zero then Dec.zero else p.sub c) = q :=
      Option.some.inj hq
    by_cases hneg : p.sub c < Dec.zero
    · rw [if_pos hneg] at hq2
      rw [← hq2]
      exact dec_zero_le.mpr (le_refl 0)
    · rw [if_neg hneg] at hq2
      rw [← hq2]
      exact dec_zero_le.mpr (by
        have := (not_iff_not.mpr dec_lt_zero).mp hneg
        omega)
  · intro hcoup
    rw [hcoup] at hc
    cases hz : safeDecimal (alookup raw "zk_final_price") with
    | none => rw [hz] at hc; exact hc
    | some p => rw [hz] at hc; exact hc

/-- Witness for C6 at a concrete entry (final 10, coupon 30, clamped to 0). -/
theorem coupon_price_clamped_witness :
    ∃ item, parse_item c6raw "kw" = some item ∧
      item.coupon_price =
        some (if Dec.sub ⟨10, 0⟩ ⟨30, 0⟩ < Dec.zero then Dec.zero
          else Dec.sub ⟨10, 0⟩ ⟨30, 0⟩) ∧
      ∀ q, item.coupon_price = some q → Dec.zero ≤ q := by
  cases h : parse_item c6raw "kw" with
  | none => exact Option.noConfusion h
  | some item =>
    have hh :=
      (coupon_price_clamped c6raw "kw" item h).1 ⟨10, 0⟩ ⟨30, 0⟩ (by decide) (by decide)
    exact ⟨item, rfl, hh.1, hh.2⟩

/-- An upstream entry with the string `"0"` as volume and 500 monthly sales. -/
def c10raw : List (String × Json) :=
  [("item_id", .str "7"), ("volume", .str "0"), ("month_sales", .str "500")]

/-- C10 counterexample: a `volume` equal to the string `"0"` is a
non-empty string, hence truthy, so it does not fall through to
`month_sales`: the constructed monthly sales are 0, not the 500 the claim
requires. -/
theorem volume_string_zero_ce :
    (parse_item c10raw "kw").map Item.monthly_sales = some (some 0) ∧
    safeInt (alookup c10raw "month_sales") = some 500 ∧
    (some (some (0 : ℤ)) : Option (Option ℤ)) ≠ some (some 500) := by decide

/-- C10 (amended): `_parse_item`'s fallbacks test Python truthiness, so a
reserve price parsing to decimal zero is discarded in favor of the final
price, and a `volume` equal to the JSON number 0 falls through to
`month_sales`; but the string `"0"` is truthy and is used directly,
yielding monthly sales 0. -/
theorem truthiness_zero_amended :
    ∀ (raw : List (String × Json)) (kw : String) (item : Item),
      parse_item raw kw = some item →
      (∀ r, safeDecimal (alookup raw "reserve_price") = some r → r.num = 0 →
        item.price = safeDecimal (alookup raw "zk_final_price")) ∧
      (∀ d, alookup raw "volume" = some (.num d) → d.num = 0 →
        item.monthly_sales = safeInt (alookup raw "month_sales")) ∧
      (alookup raw "volume" = some (.str "0") →
        item.monthly_sales = some 0) := by
  intro raw kw item h
  refine ⟨?_, ?_, ?_⟩
  · intro r hr hz
    rw [parse_item_price h, hr]
    unfold decOr
    simp [hz]
  · intro d hd hz
    rw [parse_item_monthly_sales h, hd]
    unfold jOr pyTruthy
    simp [hz]
  · intro hd
    rw [parse_item_monthly_sales h, hd]
    unfold jOr pyTruthy
    simp
    decide

/-- An upstream entry with the JSON number 0 as volume. -/
def c10wraw : List (String × Json) :=
  [("item_id", .str "7"), ("volume", .num ⟨0, 0⟩), ("month_sales", .str "500")]

/-- Witness for the amended C10 at concrete entries. -/
theorem truthiness_zero_amended_witness :
    ∃ item, parse_item c10wraw "kw" = some item ∧
      item.monthly_sales = safeInt (alookup c10wraw "month_sales") ∧
      item.monthly_sales = some 500 := by
  cases h : parse_item c10wraw "kw" with
  | none => exact Option.noConfusion h
  | some item =>
    have hh := (truthiness_zero_amended c10wraw "kw" item h).2.1 ⟨0, 0⟩ rfl rfl
    refine ⟨item, rfl, hh, ?_⟩
    rw [hh]
    decide

/-- An item with no coupon price and original price 79.9. -/
def c7item : Item :=
  { item_id := 1, category := "猫粮", title := .str "优质猫粮", image_url := none,
    price := some ⟨799, 1⟩, coupon_price := none, commission_rate := none,
    monthly_sales := none, shop_score := none, shop_title := none, item_url := none,
    coupon_url := none, coupon_info := none, tags := [], raw := [] }

/-- C7 counterexample: for an item whose coupon price is absent but whose
original price is 79.9, the coupon-price slot of the generated prompt is
`"¥79.90"` and not the `"未知"` sentinel the claim requires — the code
formats `item.coupon_price or item.price`. The full prompt coincides with
the one built for the same item with coupon price 79.9 present. -/
theorem coupon_slot_ce :
    c7item.coupon_price = none ∧
    couponPriceSlot c7item = "¥79.90" ∧
    ("¥79.90" : String) ≠ "未知" ∧
    build_prompt c7item ["weibo"] 1 =
      build_prompt { c7item with coupon_price := some ⟨799, 1⟩ } ["weibo"] 1 := by
  exact ⟨rfl, by decide, by decide, by decide⟩

/-- C7 (amended): the coupon-price slot of the generated prompt formats
`item.coupon_price or item.price`: the coupon-adjusted price (currency,
two decimals) when it is present and nonzero, and otherwise the item's
original price under the same formatting — the `"未知"` sentinel appears
only when that fallback price is itself absent. -/
theorem coupon_slot_amended :
    ∀ item : Item,
      (∀ c, item.coupon_price = some c → c.num ≠ 0 →
        couponPriceSlot item = format_price (some c)) ∧
      ((item.coupon_price = none ∨ ∃ c, item.coupon_price = some c ∧ c.num = 0) →
        couponPriceSlot item = format_price item.price) := by
  intro item
  constructor
  · intro c hc hnz
    unfold couponPriceSlot decOr
    rw [hc]
    simp [hnz]
  · intro hcase
    unfold couponPriceSlot decOr
    rcases hcase with hn | ⟨c, hc, hz⟩
    · rw [hn]
    · rw [hc]
      simp [hz]

/-- Witness for the amended C7 at the concrete item. -/
theorem coupon_slot_amended_witness :
    c7item.coupon_price = none ∧
    couponPriceSlot c7item = format_price c7item.price ∧
    format_price c7item.price = "¥79.90" :=
  ⟨rfl, (coupon_slot_amended c7item).2 (Or.inl rfl), by decide⟩

/-- C8: when the decoded body holds an `error_response` envelope,
`_request` raises a `TaobaoAPIError` carrying the envelope's code and its
`msg or sub_msg`, and no payload (hence no `SearchResult`) is produced;
without an envelope the `tbk_dg_material_optional_response` value is
returned (default `{}`) and the nested
`result_list.map_data` extraction defaults to an empty list whenever
either level of the structure is absent. -/
theorem error_envelope_propagation :
    (∀ (body kvs : List (String × Json)),
      alookup body "error_response" = some (.obj kvs) →
      taobao_request body =
        .apiError (alookup kvs "code") (jOr (alookup kvs "msg") (alookup kvs "sub_msg")) ∧
      ∀ j, taobao_request body ≠ .ok j) ∧
    (∀ body : List (String × Json),
      alookup body "error_response" = none →
      taobao_request body =
        .ok ((alookup body "tbk_dg_material_optional_response").getD (.obj []))) ∧
    (∀ kvs : List (String × Json),
      alookup kvs "result_list" = none → result_list_of (.obj kvs) = .ok (.arr [])) ∧
    (∀ (kvs kvs2 : List (String × Json)),
      alookup kvs "result_list" = some (.obj kvs2) → alookup kvs2 "map_data" = none →
      result_list_of (.obj kvs) = .ok (.arr [])) := by
  refine ⟨?_, ?_, ?_, ?_⟩
  · intro body kvs h
    have h1 : taobao_request body =
        .apiError (alookup kvs "code") (jOr (alookup kvs "msg") (alookup kvs "sub_msg")) := by
      simp [taobao_request, h]
    refine ⟨h1, ?_⟩
    intro j hj
    rw [h1] at hj
    exact ReqOutcome.noConfusion hj
  · intro body h
    simp [taobao_request, h]
  · intro kvs h
    simp [result_list_of, h]
    rfl
  · intro kvs kvs2 h1 h2
    simp [result_list_of, h1, h2]

/-- The error envelope of the C8 witness. -/
def c8env : List (String × Json) :=
  [("code", .num ⟨15, 0⟩), ("msg", .str "Remote service error"), ("sub_msg", .str "detail")]

/-- A decoded response body carrying an error envelope. -/
def c8body : List (String × Json) := [("error_response", .obj c8env)]

/-- Witness for C8 at a concrete body: the error carries code 15 and the
truthy `msg`. -/
theorem error_envelope_propagation_witness :
    alookup c8body "error_response" = some (.obj c8env) ∧
    taobao_request c8body =
      .apiError (some (.num ⟨15, 0⟩)) (some (.str "Remote service error")) ∧
    result_list_of (.obj []) = .ok (.arr []) :=
  ⟨rfl, ((error_envelope_propagation.1 c8body c8env rfl).1).trans rfl,
    error_envelope_propagation.2.2.1 [] rfl⟩

theorem take_if_lt {α : Type} (t : List α) (n : ℕ) :
    (if n < t.length then t.take n else t) = t.take n := by
  by_cases h : n < t.length
  · rw [if_pos h]
  · rw [if_neg h, List.take_of_length_le (le_of_not_lt h)]

theorem platformTexts_eq_spec (value : Option Json) (variants : ℕ) :
    platformTexts value variants = specPlatformTexts value variants := by
  unfold platformTexts specPlatformTexts
  cases value with
  | none => exact take_if_lt _ _
  | some j =>
    cases j with
    | null => exact take_if_lt _ _
    | bool b => exact take_if_lt _ _
    | str s => exact take_if_lt _ _
    | num d => exact take_if_lt _ _
    | arr xs => exact take_if_lt _ _
    | obj kvs => exact take_if_lt _ _

theorem alookup_map_self (f : String → List String) :
    ∀ (ps : List String) (p : String), p ∈ ps →
      alookup (ps.map fun x => (x, f x)) p = some (f p) := by
  intro ps
  induction ps with
  | nil => intro p hp; cases hp
  | cons a as ih =>
    intro p hp
    by_cases h : a = p
    · subst h; simp [alookup]
    · have hp2 : p ∈ as := by
        cases hp with
        | head => exact absurd rfl h
        | tail _ hh => exact hh
      simp only [List.map_cons, alookup, if_neg h]
      exact ih p hp2

theorem flatMap_eq_nil_of {α β : Type} {l : List α} {f : α → List β}
    (h : ∀ a ∈ l, f a = []) : l.flatMap f = [] := by
  induction l with
  | nil => rfl
  | cons a as ih =>
    rw [List.flatMap_cons, h a (by simp), ih (fun b hb => h b (by simp [hb]))]
    rfl

/-- C4 counterexample: on the duplicate platform list
`["weibo", "weibo"]` with an undecodable reply, `generate` produces two
creatives — one per occurrence of the first platform — not exactly one as
the claim states for every non-empty requested platform list. -/
theorem fallback_duplicate_platform_ce :
    (generateCreatives (fun _ => none) 1 "p" "m" ⟨7, 1⟩ "openai" "hello world"
        ["weibo", "weibo"] 3).map List.length = .ok 2 ∧
    (2 : ℕ) ≠ 1 := by decide

/-- C4 (amended): for every reply whose stripped text fails strict JSON
decoding and every non-empty platform list whose first platform does not
recur later in the list, `_parse_response` maps the first platform to the
single whole trimmed raw reply, and `generate` produces exactly one
creative, on the first platform, with the trimmed reply as content, and
none for the other platforms; no exception is raised and no error is
returned. -/
theorem fallback_single_creative :
    ∀ (decode : String → Option Json) (payload : String) (p : String)
      (rest : List String) (variants : ℕ) (itemId : ℤ) (prompt modelName : String)
      (temp : Dec) (provider : String),
      decode (stripPayload payload) = none →
      p ∉ rest →
      parse_response decode payload (p :: rest) variants = .ok [(p, [pyStrip payload])] ∧
      generateCreatives decode itemId prompt modelName temp provider payload
          (p :: rest) variants =
        .ok [{ item_id := itemId, platform := p, variant := 1,
               content := pyStrip payload, prompt := prompt, model := modelName,
               temperature := temp, provider := provider,
               meta_platforms := p :: rest, meta_variants := variants }] := by
  intro decode payload p rest variants itemId prompt modelName temp provider hdec hnotin
  have hp : parse_response decode payload (p :: rest) variants =
      .ok [(p, [pyStrip payload])] := by
    simp [parse_response, hdec]
  refine ⟨hp, ?_⟩
  unfold generateCreatives
  rw [hp]
  show Except.ok (creativesFor [(p, [pyStrip payload])] (p :: rest) itemId prompt
    modelName temp provider variants) = _
  congr 1
  unfold creativesFor
  rw [List.flatMap_cons]
  have hhead : alookup [(p, [pyStrip payload])] p = some [pyStrip payload] := by
    simp [alookup]
  rw [hhead]
  have htail : (rest.flatMap fun platform =>
      ((alookup [(p, [pyStrip payload])] platform).getD []).enum.map fun it =>
        ({ item_id := itemId, platform := platform, variant := it.1 + 1,
           content := it.2, prompt := prompt, model := modelName,
           temperature := temp, provider := provider,
           meta_platforms := p :: rest, meta_variants := variants } : Creative)) = [] := by
    apply flatMap_eq_nil_of
    intro a ha
    have hne : ¬ p = a := fun hh => hnotin (hh ▸ ha)
    simp [alookup, if_neg hne]
  rw [htail]
  rfl

/-- Witness for the amended C4: the two-platform degradation scenario of
the spec. -/
theorem fallback_single_creative_witness :
    parse_response (fun _ => none) "hello world" ["weibo", "xiaohongshu"] 3 =
      .ok [("weibo", [pyStrip "hello world"])] ∧
    generateCreatives (fun _ => none) 1 "p" "m" ⟨7, 1⟩ "openai" "hello world"
        ["weibo", "xiaohongshu"] 3 =
      .ok [{ item_id := 1, platform := "weibo", variant := 1,
             content := pyStrip "hello world", prompt := "p", model := "m",
             temperature := ⟨7, 1⟩, provider := "openai",
             meta_platforms := ["weibo", "xiaohongshu"], meta_variants := 3 }] :=
  fallback_single_creative (fun _ => none) "hello world" "weibo" ["xiaohongshu"] 3 1
    "p" "m" ⟨7, 1⟩ "openai" rfl (by decide)

/-- The decoded object of the C5 scenario. -/
def c5kvs : List (String × Json) :=
  [("weibo", .arr [.str "a", .str "b"]), ("xiaohongshu", .arr [.str "c"])]

/-- The well-formed JSON reply of the C5 scenario. -/
def c5payload : String := "\x7b\"weibo\": [\"a\", \"b\"], \"xiaohongshu\": [\"c\"]\x7d"

/-- A strict JSON decoder instance for the C5 scenario: decodes exactly
the C5 reply to its object, fails elsewhere. -/
def c5dec : String → Option Json := fun s =>
  if s = c5payload then some (.obj c5kvs) else none

/-- C5: when the reply decodes as a JSON object, each requested platform
contributes the texts described by the spec (`specPlatformTexts`: list
values give their non-empty stripped stringifications in order, a scalar
string gives itself, anything else gives nothing, truncated to at most
`variants`), and `generate` emits one creative per remaining text with
1-based variant indices in array order, all sharing prompt, model,
temperature, provider and metadata; the spec's concrete reply yields
exactly weibo/1="a", weibo/2="b", xiaohongshu/1="c", and five supplied
strings with `variants = 3` yield exactly the first three in order. -/
theorem parse_success_creatives :
    (∀ (decode : String → Option Json) (payload : String) (platforms : List String)
        (variants : ℕ) (kvs : List (String × Json)) (itemId : ℤ)
        (prompt modelName : String) (temp : Dec) (provider : String),
      decode (stripPayload payload) = some (.obj kvs) →
      parse_response decode payload platforms variants =
        .ok (platforms.map fun p => (p, specPlatformTexts (alookup kvs p) variants)) ∧
      generateCreatives decode itemId prompt modelName temp provider payload platforms
          variants =
        .ok (platforms.flatMap fun p =>
          (specPlatformTexts (alookup kvs p) variants).enum.map fun it =>
            ({ item_id := itemId, platform := p, variant := it.1 + 1, content := it.2,
               prompt := prompt, model := modelName, temperature := temp,
               provider := provider, meta_platforms := platforms,
               meta_variants := variants } : Creative))) ∧
    generateCreatives c5dec 1 "prompt" "m" ⟨7, 1⟩ "openai" c5payload
        ["weibo", "xiaohongshu"] 2 =
      .ok [{ item_id := 1, platform := "weibo", variant := 1, content := "a",
             prompt := "prompt", model := "m", temperature := ⟨7, 1⟩,
             provider := "openai", meta_platforms := ["weibo", "xiaohongshu"],
             meta_variants := 2 },
           { item_id := 1, platform := "weibo", variant := 2, content := "b",
             prompt := "prompt", model := "m", temperature := ⟨7, 1⟩,
             provider := "openai", meta_platforms := ["weibo", "xiaohongshu"],
             meta_variants := 2 },
           { item_id := 1, platform := "xiaohongshu", variant := 1, content := "c",
             prompt := "prompt", model := "m", temperature := ⟨7, 1⟩,
             provider := "openai", meta_platforms := ["weibo", "xiaohongshu"],
             meta_variants := 2 }] ∧
    specPlatformTexts (some (.arr [.str "a", .str "b", .str "c", .str "d", .str "e"])) 3 =
      ["a", "b", "c"] := by
  refine ⟨?_, by decide, by decide⟩
  intro decode payload platforms variants kvs itemId prompt modelName temp provider hdec
  have hp : parse_response decode payload platforms variants =
      .ok (platforms.map fun p => (p, platformTexts (alookup kvs p) variants)) := by
    cases platforms with
    | nil => simp [parse_response, hdec]
    | cons p rest => simp [parse_response, hdec]
  have hp2 : parse_response decode payload platforms variants =
      .ok (platforms.map fun p => (p, specPlatformTexts (alookup kvs p) variants)) := by
    rw [hp]
    congr 1
    exact List.map_congr_left fun a _ => by rw [platformTexts_eq_spec]
  refine ⟨hp2, ?_⟩
  unfold generateCreatives
  rw [hp2]
  show Except.ok (creativesFor _ platforms itemId prompt modelName temp provider
    variants) = _
  congr 1
  unfold creativesFor
  rw [List.flatMap_def, List.flatMap_def]
  apply congrArg List.flatten
  apply List.map_congr_left
  intro a ha
  rw [alookup_map_self (fun x => specPlatformTexts (alookup kvs x) variants) platforms a ha]
  rfl

/-- Witness for C5: the general round-trip applied to the concrete
scenario. -/
theorem parse_success_creatives_witness :
    parse_response c5dec c5payload ["weibo", "xiaohongshu"] 2 =
      .ok (["weibo", "xiaohongshu"].map fun p =>
        (p, specPlatformTexts (alookup c5kvs p) 2)) :=
  (parse_success_creatives.1 c5dec c5payload ["weibo", "xiaohongshu"] 2 c5kvs 1
    "prompt" "m" ⟨7, 1⟩ "openai" rfl).1

/-- A decoder instance decoding the reply `"[1, 2]"` to a JSON array, as
strict JSON decoding does. -/
def c9dec : String → Option Json := fun s =>
  if s = "[1, 2]" then some (.arr [.num ⟨1, 0⟩, .num ⟨2, 0⟩]) else none

/-- C9 counterexample: with the non-empty platform list `["weibo"]` and a
reply decoding to a JSON array (not an object), `_parse_response` raises
`AttributeError` at `data.get(platform)` — it is not total on all
non-empty platform lists. -/
theorem parse_response_nonobject_ce :
    parse_response c9dec "[1, 2]" ["weibo"] 3 = .error .attributeError := by decide

/-- C9 (amended): with an empty platform list and a reply that fails JSON
decoding, the fallback branch indexes `platforms[0]` and raises
`IndexError`; with a non-empty platform list, `_parse_response` returns a
dictionary without raising provided the reply either fails to decode or
decodes to a JSON object (a decoded non-object value raises
`AttributeError` instead). -/
theorem parse_response_totality_amended :
    (∀ (decode : String → Option Json) (payload : String) (variants : ℕ),
      decode (stripPayload payload) = none →
      parse_response decode payload [] variants = .error .indexError) ∧
    (∀ (decode : String → Option Json) (payload : String) (platforms : List String)
        (variants : ℕ),
      platforms ≠ [] →
      (decode (stripPayload payload) = none ∨
        ∃ kvs, decode (stripPayload payload) = some (.obj kvs)) →
      ∃ d, parse_response decode payload platforms variants = .ok d) := by
  constructor
  · intro decode payload variants h
    simp [parse_response, h]
  · intro decode payload platforms variants hne hcase
    cases platforms with
    | nil => exact absurd rfl hne
    | cons p rest =>
      rcases hcase with h | ⟨kvs, h⟩
      · exact ⟨[(p, [pyStrip payload])], by simp [parse_response, h]⟩
      · exact ⟨(p :: rest).map fun platform =>
          (platform, platformTexts (alookup kvs platform) variants),
          by simp [parse_response, h]⟩

/-- Witness for the amended C9 at concrete inputs. -/
theorem parse_response_totality_amended_witness :
    parse_response (fun _ => none) "oops" [] 3 = .error .indexError ∧
    ∃ d, parse_response (fun _ => none) "oops" ["weibo"] 3 = .ok d :=
  ⟨parse_response_totality_amended.1 (fun _ => none) "oops" 3 rfl,
    parse_response_totality_amended.2 (fun _ => none) "oops" ["weibo"] 3
      (by decide) (Or.inl rfl)⟩

end Hotflow
